import Mathlib

/-!
Shallow embedding of the delivery-estimate engine of
`pdp-estimated-delivery-date` (src/app/services/delivery-estimate.js,
src/app/services/carriers/base-carrier.js, types.js, fedex-carrier.js,
src/app/services/geolocation.js).

Dates are modelled as calendar-day indices `d : ℤ` (days since 1970-01-01,
so `getDay()` is `(d + 4) % 7` with 0 = Sunday, since 1970-01-01 was a
Thursday).  A JavaScript `Date` carrying a time of day is a day index plus
the milliseconds elapsed since that day's midnight.  Asynchronous
collaborators (the Prisma settings lookup, the postal-code and IP
geolocation lookups, the FedEx OAuth exchange, and the FedEx rate fetch)
are modelled as environment fields of type `Except String _`: a `.error`
value models a rejected promise (a thrown exception) carrying its message,
`.ok` the awaited value.
-/

/-! ## JavaScript primitives -/

/-- Truthiness of a possibly-absent JS string: `undefined`, `null` and the
empty string are falsy, every other string is truthy. -/
def jsTruthyStr : Option String → Bool
  | none => false
  | some s => !s.isEmpty

/-- The JS idiom `s || undefined`: keeps a truthy string, collapses falsy
values to `undefined`. -/
def jsStrOrUndef (o : Option String) : Option String :=
  if jsTruthyStr o then o else none

/-- The JS idiom `s || dflt` on strings: the left value when truthy, else
the default. -/
def jsOrStr (o : Option String) (dflt : String) : String :=
  match o with
  | none => dflt
  | some s => if s.isEmpty then dflt else s

/-- Truthiness of a possibly-absent JS number: `undefined`/`null` and `0`
are falsy. -/
def jsNumTruthy : Option ℤ → Bool
  | none => false
  | some n => n != 0

/-- The JS idiom `a || b` on possibly-absent numbers. -/
def jsOrNumOpt (a b : Option ℤ) : Option ℤ :=
  if jsNumTruthy a then a else b

/-- The JS idiom `a || dflt` with a numeric default. -/
def jsOrNumDefault (a : Option ℤ) (dflt : ℤ) : ℤ :=
  if jsNumTruthy a then a.getD 0 else dflt

/-- Accumulate a maximal leading run of decimal digits onto `acc`,
stopping at the first non-digit (the value `parseInt` extracts once it has
seen its first digit). -/
def digitRunValue (acc : ℕ) : List Char → ℕ
  | [] => acc
  | c :: rest =>
      if c.isDigit then digitRunValue (acc * 10 + (c.toNat - 48)) rest
      else acc

/-- The value of a maximal leading digit run, `none` when the list does not
start with a digit. -/
def leadingDigits : List Char → Option ℕ
  | [] => none
  | c :: rest =>
      if c.isDigit then some (digitRunValue (c.toNat - 48) rest)
      else none

/-- `parseInt(s, 10)`: skip leading whitespace, allow one sign, then parse
a maximal run of decimal digits; `none` models `NaN` (no digits found). -/
def jsParseIntCore : List Char → Option ℤ
  | [] => none
  | c :: rest =>
      if c.isWhitespace then jsParseIntCore rest
      else if c = '-' then (leadingDigits rest).map (fun n => -(n : ℤ))
      else if c = '+' then (leadingDigits rest).map (fun n => (n : ℤ))
      else if c.isDigit then some ((digitRunValue (c.toNat - 48) rest : ℕ) : ℤ)
      else none

/-- `parseInt(s, 10)` on a string. -/
def jsParseInt (s : String) : Option ℤ :=
  jsParseIntCore s.toList

/-- The first run of decimal digits anywhere in the string, as a number:
the JS regex match `/(\d+)/` followed by `parseInt`. `none` when the
string contains no digit. -/
def firstDigitRun : List Char → Option ℕ
  | [] => none
  | c :: rest =>
      if c.isDigit then some (digitRunValue (c.toNat - 48) rest)
      else firstDigitRun rest

/-- `s.split(':')` on the character list: splits at every colon, keeping
empty components. -/
def splitOnColonAux : List Char → List Char → List (List Char)
  | acc, [] => [acc.reverse]
  | acc, c :: rest =>
      if c = ':' then acc.reverse :: splitOnColonAux [] rest
      else splitOnColonAux (c :: acc) rest

/-- `Number(s)` restricted to the strings occurring in `HH:MM` settings:
a trimmed empty string is `0`, a run of decimal digits is its value, and
anything else is `NaN` (`none`). -/
def jsNumberField (l : List Char) : Option ℕ :=
  let t := ((l.dropWhile Char.isWhitespace).reverse.dropWhile Char.isWhitespace).reverse
  if t.isEmpty then some 0
  else if t.all Char.isDigit then some (digitRunValue 0 t)
  else none

/-- `cutoffTime.split(':').map(Number)` destructured into hour and minute:
`none` models the case where either component is `NaN` (the constructed
cutoff `Date` is then invalid, and `now >= cutoff` is false). -/
def parseCutoffTime (s : String) : Option (ℕ × ℕ) :=
  match splitOnColonAux [] s.toList with
  | h :: m :: _ =>
      match jsNumberField h, jsNumberField m with
      | some ch, some cm => some (ch, cm)
      | _, _ => none
  | _ => none

/-- JS `<` against a numeric literal where the left side may be `NaN`:
every comparison with `NaN` is false. -/
def jsLt : Option ℤ → ℤ → Bool
  | none, _ => false
  | some a, b => a < b

/-- `Math.abs(a - b)` where either operand may be `NaN`. -/
def jsAbsSub : Option ℤ → Option ℤ → Option ℤ
  | some a, some b => some |a - b|
  | _, _ => none

/-! ## Business-day calendar (delivery-estimate.js lines 185-282,
fedex-carrier.js `getNextBusinessDay` / `addBusinessDays` /
`calculateBusinessDays`) -/

/-- `date.getDay()`: 0 = Sunday .. 6 = Saturday, for a day index counted
from 1970-01-01 (a Thursday). -/
def jsGetDay (d : ℤ) : ℤ :=
  (d + 4) % 7

/-- `getDay() !== 0 && getDay() !== 6`: the day counts as a business
(processing) day. -/
def isBusinessDay (d : ℤ) : Bool :=
  jsGetDay d != 0 && jsGetDay d != 6

/-- One iteration block of the advancing loops: step to the next calendar
day and keep stepping while the result falls on a weekend.  Weekends are
two consecutive days, so at most three calendar steps are needed; the
cascade below returns exactly the first business day strictly after `d`
(certified by `nextBusinessDay_least` below), which is what the source
loop `do { +1 day } until weekday` computes. -/
def nextBusinessDay (d : ℤ) : ℤ :=
  if isBusinessDay (d + 1) then d + 1
  else if isBusinessDay (d + 2) then d + 2
  else d + 3

/-- The trailing `while (weekend) { +1 day }` loop: the first business day
at or after `d` (certified by `skipWeekend_least` below). -/
def skipWeekend (d : ℤ) : ℤ :=
  if isBusinessDay d then d
  else if isBusinessDay (d + 1) then d + 1
  else d + 2

/-- The loop `while (added < days) { result.setDate(+1); if weekday
added++ }` advances to the next business day exactly `n` times. -/
def addBusinessDaysNat : ℤ → ℕ → ℤ
  | d, 0 => d
  | d, n + 1 => addBusinessDaysNat (nextBusinessDay d) n

/-- `addBusinessDays(startDate, days)` (identical source text in
delivery-estimate.js lines 270-282 and fedex-carrier.js lines 342-354):
for `days ≤ 0` the loop guard `added < days` fails immediately and the
start date is returned unchanged. -/
def addBusinessDays (startDate : ℤ) (days : ℤ) : ℤ :=
  addBusinessDaysNat startDate days.toNat

/-- `getNextBusinessDay(date)` (fedex-carrier.js lines 328-337): one
calendar day forward, then skip any weekend. -/
def getNextBusinessDay (d : ℤ) : ℤ :=
  nextBusinessDay d

/-- Number of business days in the window `(a, a + n]`. -/
def countBusinessUpTo (a : ℤ) : ℕ → ℕ
  | 0 => 0
  | n + 1 => countBusinessUpTo a n + (if isBusinessDay (a + (n : ℤ) + 1) then 1 else 0)

/-- Number of business days `e` with `a < e ≤ b` (zero when `b ≤ a`). -/
def countBusinessBetween (a b : ℤ) : ℕ :=
  countBusinessUpTo a (b - a).toNat

/-- `calculateBusinessDays(startDate, endDate)` (fedex-carrier.js lines
359-371): walks one day at a time from start to end counting weekdays;
returns 0 when `endDate ≤ startDate`. -/
def calculateBusinessDays (startDate endDate : ℤ) : ℤ :=
  (countBusinessBetween startDate endDate : ℤ)

/-! ## Civil calendar rendering (for `toLocaleDateString` /
`formatDateRange`) -/

/-- Convert a day index (days since 1970-01-01) to `(year, month, day)`
with `month` in 1..12 (the standard days-from-civil inverse). -/
def civilFromDays (z0 : ℤ) : ℤ × ℕ × ℕ :=
  let z : ℤ := z0 + 719468
  let era : ℤ := (if 0 ≤ z then z else z - 146096) / 146097
  let doe : ℕ := (z - era * 146097).toNat
  let yoe : ℕ := (doe - doe / 1460 + doe / 36524 - doe / 146096) / 365
  let y : ℤ := (yoe : ℤ) + era * 400
  let doy : ℕ := doe - (365 * yoe + yoe / 4 - yoe / 100)
  let mp : ℕ := (5 * doy + 2) / 153
  let dy : ℕ := doy - (153 * mp + 2) / 5 + 1
  let m : ℕ := if mp < 10 then mp + 3 else mp - 9
  (if m ≤ 2 then y + 1 else y, m, dy)

/-- Short month names of the `en-US` locale. -/
def monthShort (m : ℕ) : String :=
  match m with
  | 1 => "Jan" | 2 => "Feb" | 3 => "Mar" | 4 => "Apr"
  | 5 => "May" | 6 => "Jun" | 7 => "Jul" | 8 => "Aug"
  | 9 => "Sep" | 10 => "Oct" | 11 => "Nov" | 12 => "Dec"
  | _ => ""

/-- `date.toLocaleDateString('en-US', {month:'short', day:'numeric'})`,
e.g. "Feb 10". -/
def formatDateMD (d : ℤ) : String :=
  monthShort (civilFromDays d).2.1 ++ " " ++ toString (civilFromDays d).2.2

/-- `formatDateRange(minDate, maxDate)` (delivery-estimate.js lines
288-298): same-month compressed form compares `getMonth()` values only. -/
def formatDateRange (minDate maxDate : ℤ) : String :=
  if (civilFromDays minDate).2.1 = (civilFromDays maxDate).2.1 then
    formatDateMD minDate ++ " - " ++ toString (civilFromDays maxDate).2.2
  else
    formatDateMD minDate ++ " - " ++ formatDateMD maxDate

/-- `formatTransitDays(days)` (delivery-estimate.js lines 304-307). -/
def formatTransitDays (days : ℤ) : String :=
  toString days ++ "-" ++ toString (days + 2) ++ " business days"

/-! ## Ship-date calculation (delivery-estimate.js lines 185-217) -/

/-- A JS `Date` split into its calendar day index and the milliseconds
elapsed since that day's midnight. -/
structure JsDate where
  day : ℤ
  timeMs : ℕ
  deriving DecidableEq, Repr

/-- `calculateShipDate(handlingDays, cutoffTime)`: the source reads
`new Date()` internally; here `now` is passed explicitly.  The cutoff
`Date` is `now` with hours/minutes set to the parsed cutoff and
seconds/milliseconds zeroed (overflowing hours roll into later days, which
the millisecond comparison reproduces); `now >= cutoff` reduces to
comparing times of day.  When parsing yields `NaN` the cutoff `Date` is
invalid and the comparison is false.  Then the handling-day loop (the same
`while (added < handlingDays)` loop as `addBusinessDays`, with negative
counts adding nothing) runs, and a trailing loop moves a weekend result to
Monday. -/
def calculateShipDate (now : JsDate) (handlingDays : ℤ) (cutoffTime : String) : ℤ :=
  match parseCutoffTime cutoffTime with
  | some (ch, cm) =>
      let cutoffMs := ch * 3600000 + cm * 60000
      let start := if cutoffMs ≤ now.timeMs then now.day + 1 else now.day
      skipWeekend (addBusinessDaysNat start handlingDays.toNat)
  | none =>
      skipWeekend (addBusinessDaysNat now.day handlingDays.toNat)

/-! ## Zone heuristic (delivery-estimate.js lines 250-265) -/

/-- `estimateTransitDays(originZip, destZip)`: 5 when either input is
falsy; otherwise the absolute difference of the `parseInt`s of the leading
three characters is mapped through ascending thresholds, every comparison
with a `NaN` difference being false. -/
def estimateTransitDays (originZip destZip : Option String) : ℤ :=
  if !jsTruthyStr originZip || !jsTruthyStr destZip then 5
  else
    let originSCF := jsParseInt ((originZip.getD "").take 3)
    let destSCF := jsParseInt ((destZip.getD "").take 3)
    let scfDiff := jsAbsSub originSCF destSCF
    if jsLt scfDiff 50 then 2
    else if jsLt scfDiff 200 then 3
    else if jsLt scfDiff 400 then 4
    else if jsLt scfDiff 600 then 5
    else 6

/-! ## Locations and settings -/

/-- The location contract of geolocation.js (the fields the orchestrator
reads: city, region, postal code, country code; provenance and
coordinates are dropped as the core never reads them). -/
structure GeoLocation where
  city : String
  region : String
  postalCode : String
  countryCode : String
  deriving DecidableEq, Repr

/-- `getDefaultLocation()` (geolocation.js lines 204-212). -/
def getDefaultLocation : GeoLocation :=
  { city := "Kansas City", region := "MO", postalCode := "64106", countryCode := "US" }

/-- `formatLocation(location)` (delivery-estimate.js lines 313-323):
`"{city}, {region}"` when both present, else city, else
`region || countryCode`. -/
def formatLocation (location : GeoLocation) : String :=
  if !location.city.isEmpty && !location.region.isEmpty then
    location.city ++ ", " ++ location.region
  else if !location.city.isEmpty then location.city
  else if !location.region.isEmpty then location.region
  else location.countryCode

/-- An address as sent to a carrier (carriers/types.js). -/
structure Address where
  street : Option String
  city : String
  state : String
  postalCode : String
  countryCode : String
  deriving DecidableEq, Repr

/-- One `AppSettings` row (prisma migration 20260204212303): the fields
the orchestrator reads.  Nullable text columns are `Option String`. -/
structure AppSettings where
  isEnabled : Bool
  warehouseStreet : Option String
  warehouseCity : String
  warehouseState : String
  warehousePostalCode : String
  warehouseCountryCode : String
  handlingTimeDays : ℤ
  cutoffTime : String
  fedexApiKey : Option String
  fedexSecretKey : Option String
  fedexAccountNumber : Option String
  showExactDates : Bool
  deriving DecidableEq, Repr

/-- The `DeliveryEstimate` result shape (delivery-estimate.js typedef).
`deliveryDateMin`/`deliveryDateMax` hold the day index whose ISO rendering
the source returns; `isFallback` is only ever set (to `true`) on the
fallback path, so an absent field is `none`. -/
structure DeliveryEstimate where
  success : Bool
  error : Option String := none
  deliveryDateMin : Option ℤ := none
  deliveryDateMax : Option ℤ := none
  displayText : Option String := none
  location : Option String := none
  transitDays : Option ℤ := none
  isFallback : Option Bool := none
  deriving DecidableEq, Repr

/-- `generateFallbackEstimate(origin, destination, shipDate, settings)`
(delivery-estimate.js lines 223-244). -/
def generateFallbackEstimate (origin : Address) (destination : GeoLocation)
    (shipDate : ℤ) (settings : AppSettings) : DeliveryEstimate :=
  let transitDays := estimateTransitDays (some origin.postalCode) (some destination.postalCode)
  let deliveryDateMin := addBusinessDays shipDate transitDays
  let deliveryDateMax := addBusinessDays shipDate (transitDays + 2)
  let locationText := formatLocation destination
  let dateText :=
    if settings.showExactDates then formatDateRange deliveryDateMin deliveryDateMax
    else formatTransitDays transitDays
  { success := true,
    deliveryDateMin := some deliveryDateMin,
    deliveryDateMax := some deliveryDateMax,
    displayText := some ("Arrives " ++ dateText),
    location := some locationText,
    transitDays := some transitDays,
    isFallback := some true }

/-! ## FedEx carrier (fedex-carrier.js) -/

/-- Carrier credentials (carriers/types.js). -/
structure FedExCredentials where
  apiKey : Option String
  secretKey : Option String
  accountNumber : Option String
  deriving DecidableEq, Repr

/-- `validateCredentials()` (fedex-carrier.js lines 120-126). -/
def validateCredentials (c : FedExCredentials) : Bool :=
  jsTruthyStr c.apiKey && jsTruthyStr c.secretKey && jsTruthyStr c.accountNumber

/-- `commit.transitTime` of a FedEx rate reply: a quoted day count (which
may be absent or null) and a free-text description. -/
structure TransitTimeInfo where
  transitDays : Option ℤ
  description : Option String
  deriving DecidableEq, Repr

/-- `commit.dateDetail`: `dayFormat` holds the day index of the parsed
explicit delivery date, `none` when the field is absent or empty
(falsy). -/
structure DateDetail where
  dayFormat : Option ℤ
  deriving DecidableEq, Repr

/-- `rateReplyDetails[i].commit`. -/
structure Commit where
  transitTime : Option TransitTimeInfo
  dateDetail : Option DateDetail
  deriving DecidableEq, Repr

/-- One entry of `output.rateReplyDetails`. -/
structure RateReplyDetail where
  commit : Option Commit
  serviceName : Option String
  deriving DecidableEq, Repr

/-- The body of a successful rate HTTP response:
`data.output?.rateReplyDetails` collapses a missing `output` or a missing
list to `none`. -/
structure RateResponseData where
  rateReplyDetails : Option (List RateReplyDetail)
  deriving DecidableEq, Repr

/-- `parseTransitDays(description)` (fedex-carrier.js lines 312-316):
falsy description gives null; otherwise the regex `/(\d+)/` finds the
first digit run anywhere in the string. -/
def parseTransitDays (description : Option String) : Option ℤ :=
  match description with
  | none => none
  | some s =>
      if s.isEmpty then none
      else (firstDigitRun s.toList).map (fun n => (n : ℤ))

/-- The `TransitTimeResponse` shape (carriers/types.js).  `carrier` is an
`Option` because the orchestrator's local catch builds a bare
`{success:false}` object without it. -/
structure TransitTimeResponse where
  success : Bool
  error : Option String := none
  deliveryDateMin : Option ℤ := none
  deliveryDateMax : Option ℤ := none
  transitDays : Option ℤ := none
  serviceName : Option String := none
  carrier : Option String := none
  deriving DecidableEq, Repr

/-- `parseRateResponse(data, shipDate)` (fedex-carrier.js lines 257-307).
The optional-chaining field accesses are total, so its internal
try/catch never fires in this model. -/
def parseRateResponse (data : RateResponseData) (shipDate : ℤ) : TransitTimeResponse :=
  match data.rateReplyDetails.bind List.head? with
  | none =>
      { success := false, error := some "No rate details in response", carrier := some "fedex" }
  | some rateReply =>
      let commitTT := rateReply.commit.bind Commit.transitTime
      let transitDays : Option ℤ :=
        jsOrNumOpt (commitTT.bind TransitTimeInfo.transitDays)
          (parseTransitDays (commitTT.bind TransitTimeInfo.description))
      let deliveryDateMin := addBusinessDays shipDate (jsOrNumDefault transitDays 3)
      let deliveryDateMax := addBusinessDays shipDate (jsOrNumDefault transitDays 3 + 2)
      match (rateReply.commit.bind Commit.dateDetail).bind DateDetail.dayFormat with
      | some fedexDeliveryDate =>
          { success := true,
            deliveryDateMin := some fedexDeliveryDate,
            deliveryDateMax := some (addBusinessDays fedexDeliveryDate 1),
            transitDays :=
              some (jsOrNumDefault transitDays (calculateBusinessDays shipDate fedexDeliveryDate)),
            serviceName := some (jsOrStr rateReply.serviceName "FedEx Ground"),
            carrier := some "fedex" }
      | none =>
          { success := true,
            deliveryDateMin := some deliveryDateMin,
            deliveryDateMax := some deliveryDateMax,
            transitDays := some (jsOrNumDefault transitDays 5),
            serviceName := some (jsOrStr rateReply.serviceName "FedEx Ground"),
            carrier := some "fedex" }

/-- A transit-time request (carriers/types.js). -/
structure TransitTimeRequest where
  origin : Address
  destination : Address
  shipDate : Option ℤ
  serviceType : Option String
  deriving DecidableEq, Repr

/-- Outcome of the rate `fetch` once it resolved: an HTTP error response
(carrying `errors[0].message` when the error body held one) or a parsed
JSON body. -/
inductive RateHttpReply where
  | failure (errorMessage : Option String)
  | success (data : RateResponseData)
  deriving DecidableEq, Repr

/-- Environment of one `getTransitTime` call: the OAuth token exchange
outcome (`.error` = the throw in `getAccessToken`), the rate fetch
outcome (`.error` = a network throw), and the current time for the
default ship date. -/
structure FedExEnv where
  tokenResult : Except String String
  fetchResult : Except String RateHttpReply
  now : JsDate
  deriving Repr

/-- `FedExCarrier.getTransitTime(request)` (fedex-carrier.js lines
168-252): the whole body sits in a try/catch whose catch converts any
thrown error into a failure response. -/
def getTransitTime (creds : FedExCredentials) (request : TransitTimeRequest)
    (env : FedExEnv) : TransitTimeResponse :=
  if !validateCredentials creds then
    { success := false, error := some "FedEx credentials not configured", carrier := some "fedex" }
  else
    match env.tokenResult with
    | .error msg => { success := false, error := some msg, carrier := some "fedex" }
    | .ok _token =>
        let shipDate :=
          match request.shipDate with
          | some d => d
          | none => getNextBusinessDay env.now.day
        match env.fetchResult with
        | .error msg => { success := false, error := some msg, carrier := some "fedex" }
        | .ok (.failure errMsg) =>
            { success := false, error := some (jsOrStr errMsg "Failed to get rate quote"),
              carrier := some "fedex" }
        | .ok (.success data) => parseRateResponse data shipDate

/-! ## Estimate orchestrator (delivery-estimate.js lines 29-151) -/

/-- Environment of one `getDeliveryEstimate` call: outcomes of the
awaited collaborators.  `settingsResult` is the Prisma lookup keyed by the
`shop` argument; `postalLookupResult` is `getLocationFromPostalCode`
(declared in the repository but external to src, specified in spec §6 as
`resolve(postalCode) → ResolvedLocation | null`); `ipLookupResult` is
`getLocationFromIP(customerIP)`; `carrierThrow` models a throw from the
carrier construction/call itself, caught by the inner catch at lines
116-119. -/
structure OrchEnv where
  now : JsDate
  settingsResult : Except String (Option AppSettings)
  postalLookupResult : Except String (Option GeoLocation)
  ipLookupResult : Except String (Option GeoLocation)
  fedexEnv : FedExEnv
  carrierThrow : Option String
  deriving Repr

/-- Destination resolution (delivery-estimate.js lines 49-70): a truthy
postal code goes through the postal lookup, degrading to a minimal
US location carrying just the code; otherwise IP geolocation, degrading
to the static default location. -/
def resolveDestination (postalCode : Option String) (env : OrchEnv) :
    Except String GeoLocation :=
  if jsTruthyStr postalCode then
    env.postalLookupResult.map (fun loc? =>
      match loc? with
      | some loc => loc
      | none =>
          { city := "", region := "", postalCode := postalCode.getD "", countryCode := "US" })
  else
    env.ipLookupResult.map (fun loc? => loc?.getD getDefaultLocation)

/-- Origin address built from warehouse settings (delivery-estimate.js
lines 73-79): `warehouseStreet || undefined`. -/
def buildOrigin (s : AppSettings) : Address :=
  { street := jsStrOrUndef s.warehouseStreet,
    city := s.warehouseCity,
    state := s.warehouseState,
    postalCode := s.warehousePostalCode,
    countryCode := s.warehouseCountryCode }

/-- `settings.fedexApiKey && settings.fedexSecretKey &&
settings.fedexAccountNumber` (line 87). -/
def credsConfigured (s : AppSettings) : Bool :=
  jsTruthyStr s.fedexApiKey && jsTruthyStr s.fedexSecretKey && jsTruthyStr s.fedexAccountNumber

/-- Lines 85-122: `transitResult` stays null without credentials;
otherwise the carrier call runs inside a try whose catch replaces a throw
by the bare object `{success:false}`. -/
def carrierTransitResult (s : AppSettings) (origin : Address) (destination : GeoLocation)
    (shipDate : ℤ) (env : OrchEnv) : Option TransitTimeResponse :=
  if credsConfigured s then
    some (match env.carrierThrow with
      | some _ => { success := false }
      | none =>
          getTransitTime
            { apiKey := s.fedexApiKey, secretKey := s.fedexSecretKey,
              accountNumber := s.fedexAccountNumber }
            { origin := origin,
              destination :=
                { street := none, city := destination.city, state := destination.region,
                  postalCode := destination.postalCode, countryCode := destination.countryCode },
              shipDate := some shipDate,
              serviceType := some "FEDEX_GROUND" }
            env.fedexEnv)
  else none

/-- Lines 130-143: format a successful carrier result.  On this path the
carrier response carries its dates and day count (the invariant proved
for `getTransitTime`); the `getD 0` defaults are never reached. -/
def formatCarrierResult (settings : AppSettings) (destination : GeoLocation)
    (r : TransitTimeResponse) : DeliveryEstimate :=
  let locationText := formatLocation destination
  let dateText :=
    if settings.showExactDates then
      formatDateRange (r.deliveryDateMin.getD 0) (r.deliveryDateMax.getD 0)
    else formatTransitDays (r.transitDays.getD 0)
  { success := true,
    deliveryDateMin := r.deliveryDateMin,
    deliveryDateMax := r.deliveryDateMax,
    displayText := some ("Arrives " ++ dateText),
    location := some locationText,
    transitDays := r.transitDays }

/-- The body of the orchestrator's try block (lines 30-143): a `.error`
is an exception escaping to the boundary catch. -/
def getDeliveryEstimateCore (postalCode : Option String) (env : OrchEnv) :
    Except String DeliveryEstimate :=
  match env.settingsResult with
  | .error e => .error e
  | .ok none =>
      .ok { success := false, error := some "App not configured for this shop" }
  | .ok (some settings) =>
      if settings.isEnabled = false then
        .ok { success := false, error := some "Delivery estimates are disabled" }
      else
        match resolveDestination postalCode env with
        | .error e => .error e
        | .ok destination =>
            let origin := buildOrigin settings
            let shipDate := calculateShipDate env.now settings.handlingTimeDays settings.cutoffTime
            match carrierTransitResult settings origin destination shipDate env with
            | some r =>
                if r.success then .ok (formatCarrierResult settings destination r)
                else .ok (generateFallbackEstimate origin destination shipDate settings)
            | none => .ok (generateFallbackEstimate origin destination shipDate settings)

/-- `getDeliveryEstimate(shop, customerIP, postalCode)` (lines 29-151):
the boundary try/catch.  `shop` and `customerIP` select the environment's
collaborator outcomes and are absorbed into `env`. -/
def getDeliveryEstimate (postalCode : Option String) (env : OrchEnv) : DeliveryEstimate :=
  match getDeliveryEstimateCore postalCode env with
  | .ok r => r
  | .error _ => { success := false, error := some "Failed to calculate delivery estimate" }

/-! ## Calendar lemmas -/

/-- Unfold `isBusinessDay` to a pure residue statement `omega` can use. -/
lemma isBusinessDay_iff (d : ℤ) :
    isBusinessDay d = true ↔ ((d + 4) % 7 ≠ 0 ∧ (d + 4) % 7 ≠ 6) := by
  simp [isBusinessDay, jsGetDay, bne]

/-- `nextBusinessDay d` is the least business day strictly after `d`:
this certifies that the bounded cascade coincides with the source loop
`result.setDate(+1); while (weekend) result.setDate(+1)`. -/
lemma nextBusinessDay_least (d : ℤ) :
    d < nextBusinessDay d ∧ isBusinessDay (nextBusinessDay d) = true ∧
      ∀ e, d < e → e < nextBusinessDay d → isBusinessDay e = false := by
  unfold nextBusinessDay
  by_cases h1 : isBusinessDay (d + 1) = true
  · rw [if_pos h1]
    exact ⟨by omega, h1, fun e he1 he2 => by omega⟩
  · rw [if_neg h1]
    by_cases h2 : isBusinessDay (d + 2) = true
    · rw [if_pos h2]
      refine ⟨by omega, h2, fun e he1 he2 => ?_⟩
      have : e = d + 1 := by omega
      subst this
      simpa using h1
    · rw [if_neg h2]
      have hb1 : isBusinessDay (d + 1) = false := by simpa using h1
      have hb2 : isBusinessDay (d + 2) = false := by simpa using h2
      rw [Bool.eq_false_iff, Ne, isBusinessDay_iff] at hb1 hb2
      have h3 : isBusinessDay (d + 3) = true := by
        rw [isBusinessDay_iff]
        omega
      refine ⟨by omega, h3, fun e he1 he2 => ?_⟩
      rcases (by omega : e = d + 1 ∨ e = d + 2) with rfl | rfl
      · simpa using h1
      · simpa using h2

lemma nextBusinessDay_gt (d : ℤ) : d < nextBusinessDay d :=
  (nextBusinessDay_least d).1

lemma nextBusinessDay_le (d : ℤ) : nextBusinessDay d ≤ d + 3 := by
  unfold nextBusinessDay
  split <;> [omega; skip]
  split <;> omega

lemma isBusinessDay_nextBusinessDay (d : ℤ) :
    isBusinessDay (nextBusinessDay d) = true :=
  (nextBusinessDay_least d).2.1

/-- `skipWeekend d` is the least business day at or after `d`: this
certifies that the bounded cascade coincides with the source loop
`while (weekend) { +1 day }`. -/
lemma skipWeekend_least (d : ℤ) :
    d ≤ skipWeekend d ∧ isBusinessDay (skipWeekend d) = true ∧
      ∀ e, d ≤ e → e < skipWeekend d → isBusinessDay e = false := by
  unfold skipWeekend
  by_cases h0 : isBusinessDay d = true
  · rw [if_pos h0]
    exact ⟨le_refl d, h0, fun e he1 he2 => by omega⟩
  · rw [if_neg h0]
    by_cases h1 : isBusinessDay (d + 1) = true
    · rw [if_pos h1]
      refine ⟨by omega, h1, fun e he1 he2 => ?_⟩
      have : e = d := by omega
      subst this
      simpa using h0
    · rw [if_neg h1]
      have hb0 : isBusinessDay d = false := by simpa using h0
      have hb1 : isBusinessDay (d + 1) = false := by simpa using h1
      rw [Bool.eq_false_iff, Ne, isBusinessDay_iff] at hb0 hb1
      have h2 : isBusinessDay (d + 2) = true := by
        rw [isBusinessDay_iff]
        omega
      refine ⟨by omega, h2, fun e he1 he2 => ?_⟩
      rcases (by omega : e = d ∨ e = d + 1) with rfl | rfl
      · simpa using h0
      · simpa using h1

lemma skipWeekend_of_business {d : ℤ} (h : isBusinessDay d = true) :
    skipWeekend d = d := by
  unfold skipWeekend
  simp [h]

/-- Shifting the advancing loop: adding `n + 1` business days is adding
`n` and then advancing once more. -/
lemma addBusinessDaysNat_succ (d : ℤ) (n : ℕ) :
    addBusinessDaysNat d (n + 1) = nextBusinessDay (addBusinessDaysNat d n) := by
  induction n generalizing d with
  | zero => rfl
  | succ m ih =>
      show addBusinessDaysNat (nextBusinessDay d) (m + 1) =
        nextBusinessDay (addBusinessDaysNat (nextBusinessDay d) m)
      exact ih (nextBusinessDay d)

lemma le_addBusinessDaysNat (d : ℤ) (n : ℕ) : d ≤ addBusinessDaysNat d n := by
  induction n generalizing d with
  | zero => exact le_refl d
  | succ m ih =>
      calc d ≤ nextBusinessDay d := le_of_lt (nextBusinessDay_gt d)
        _ ≤ addBusinessDaysNat (nextBusinessDay d) m := ih (nextBusinessDay d)

lemma addBusinessDaysNat_lt_succ (d : ℤ) (n : ℕ) :
    addBusinessDaysNat d n < addBusinessDaysNat d (n + 1) := by
  rw [addBusinessDaysNat_succ]
  exact nextBusinessDay_gt _

/-- The advancing loop is strictly monotone in the business-day count. -/
lemma addBusinessDaysNat_strictMono (d : ℤ) :
    StrictMono (fun n => addBusinessDaysNat d n) :=
  strictMono_nat_of_lt_succ (fun n => addBusinessDaysNat_lt_succ d n)

/-- For a positive count the loop ends on a business day (the counter only
advances on business days). -/
lemma isBusinessDay_addBusinessDaysNat (d : ℤ) (n : ℕ) (h : 1 ≤ n) :
    isBusinessDay (addBusinessDaysNat d n) = true := by
  obtain ⟨m, rfl⟩ : ∃ m, n = m + 1 := ⟨n - 1, by omega⟩
  rw [addBusinessDaysNat_succ]
  exact isBusinessDay_nextBusinessDay _

/-- Splitting the counting window at an intermediate day. -/
lemma countBusinessUpTo_add (a : ℤ) (m n : ℕ) :
    countBusinessUpTo a (m + n) = countBusinessUpTo a m + countBusinessUpTo (a + m) n := by
  induction n with
  | zero => simp [countBusinessUpTo]
  | succ k ih =>
      have : m + (k + 1) = (m + k) + 1 := by omega
      rw [this]
      show countBusinessUpTo a (m + k) +
          (if isBusinessDay (a + ((m + k : ℕ) : ℤ) + 1) then 1 else 0) = _
      rw [ih]
      show _ = countBusinessUpTo a m + (countBusinessUpTo (a + m) k +
          (if isBusinessDay (a + (m : ℤ) + (k : ℤ) + 1) then 1 else 0))
      have harg : a + ((m + k : ℕ) : ℤ) + 1 = a + (m : ℤ) + (k : ℤ) + 1 := by
        push_cast
        ring
      rw [harg]
      omega

lemma countBusinessBetween_trans {a b c : ℤ} (hab : a ≤ b) (hbc : b ≤ c) :
    countBusinessBetween a c = countBusinessBetween a b + countBusinessBetween b c := by
  unfold countBusinessBetween
  have h1 : (c - a).toNat = (b - a).toNat + (c - b).toNat := by omega
  rw [h1, countBusinessUpTo_add]
  have h2 : a + ((b - a).toNat : ℤ) = b := by omega
  rw [h2]

/-- Exactly one business day lies in `(d, nextBusinessDay d]`. -/
lemma countBusinessBetween_nextBusinessDay (d : ℤ) :
    countBusinessBetween d (nextBusinessDay d) = 1 := by
  unfold nextBusinessDay
  by_cases h1 : isBusinessDay (d + 1) = true
  · rw [if_pos h1]
    have ht : (d + 1 - d).toNat = 1 := by omega
    rw [countBusinessBetween, ht]
    show 0 + (if isBusinessDay (d + ((0 : ℕ) : ℤ) + 1) then 1 else 0) = 1
    have e1 : d + ((0 : ℕ) : ℤ) + 1 = d + 1 := by push_cast; ring
    rw [e1]
    simp [h1]
  · rw [if_neg h1]
    by_cases h2 : isBusinessDay (d + 2) = true
    · rw [if_pos h2]
      have ht : (d + 2 - d).toNat = 2 := by omega
      rw [countBusinessBetween, ht]
      show 0 + (if isBusinessDay (d + ((0 : ℕ) : ℤ) + 1) then 1 else 0) +
          (if isBusinessDay (d + ((1 : ℕ) : ℤ) + 1) then 1 else 0) = 1
      have e1 : d + ((0 : ℕ) : ℤ) + 1 = d + 1 := by push_cast; ring
      have e2 : d + ((1 : ℕ) : ℤ) + 1 = d + 2 := by push_cast; ring
      rw [e1, e2]
      simp [h1, h2]
    · rw [if_neg h2]
      have hb1 : isBusinessDay (d + 1) = false := by simpa using h1
      have hb2 : isBusinessDay (d + 2) = false := by simpa using h2
      have h3 : isBusinessDay (d + 3) = true := by
        rw [Bool.eq_false_iff, Ne, isBusinessDay_iff] at hb1 hb2
        rw [isBusinessDay_iff]
        omega
      have ht : (d + 3 - d).toNat = 3 := by omega
      rw [countBusinessBetween, ht]
      show 0 + (if isBusinessDay (d + ((0 : ℕ) : ℤ) + 1) then 1 else 0) +
          (if isBusinessDay (d + ((1 : ℕ) : ℤ) + 1) then 1 else 0) +
          (if isBusinessDay (d + ((2 : ℕ) : ℤ) + 1) then 1 else 0) = 1
      have e1 : d + ((0 : ℕ) : ℤ) + 1 = d + 1 := by push_cast; ring
      have e2 : d + ((1 : ℕ) : ℤ) + 1 = d + 2 := by push_cast; ring
      have e3 : d + ((2 : ℕ) : ℤ) + 1 = d + 3 := by push_cast; ring
      rw [e1, e2, e3]
      simp [h1, h2, h3]

/-- The advancing loop adds exactly `n` business days: the window from the
start to the loop's result contains `n` business days. -/
lemma countBusinessBetween_addBusinessDaysNat (d : ℤ) (n : ℕ) :
    countBusinessBetween d (addBusinessDaysNat d n) = n := by
  induction n with
  | zero =>
      show countBusinessBetween d d = 0
      unfold countBusinessBetween
      simp [countBusinessUpTo]
  | succ m ih =>
      rw [addBusinessDaysNat_succ]
      rw [countBusinessBetween_trans (le_addBusinessDaysNat d m)
        (le_of_lt (nextBusinessDay_gt _))]
      rw [ih, countBusinessBetween_nextBusinessDay]

/-! ## Claim theorems -/

lemma jsTruthyStr_some_iff (s : String) : jsTruthyStr (some s) = true ↔ s ≠ "" := by
  simp only [jsTruthyStr, Bool.not_eq_true']
  rw [Bool.eq_false_iff]
  exact not_congr (String.isEmpty_iff s)

/-- C8: for every date `d`, `addBusinessDays(d, 0) = d`, and
`n ↦ addBusinessDays(d, n)` is strictly increasing on `n ≥ 0`. -/
theorem addBusinessDays_zero_and_strictMono (d : ℤ) :
    addBusinessDays d 0 = d ∧
      ∀ m n : ℤ, 0 ≤ m → m < n → addBusinessDays d m < addBusinessDays d n := by
  constructor
  · rfl
  · intro m n hm hmn
    unfold addBusinessDays
    have h : m.toNat < n.toNat := by omega
    exact addBusinessDaysNat_strictMono d h

/-- Witness for C8 at `d = 20000`, `m = 1`, `n = 3`. -/
theorem addBusinessDays_zero_and_strictMono_witness :
    addBusinessDays 20000 0 = 20000 ∧ addBusinessDays 20000 1 < addBusinessDays 20000 3 :=
  ⟨(addBusinessDays_zero_and_strictMono 20000).1,
   (addBusinessDays_zero_and_strictMono 20000).2 1 3 (by decide) (by decide)⟩

/-- C10: for every date `d` and every integer `n ≤ 0`, the loop guard
`added < days` fails immediately and `addBusinessDays(d, n) = d`. -/
theorem addBusinessDays_nonpos (d n : ℤ) (h : n ≤ 0) : addBusinessDays d n = d := by
  unfold addBusinessDays
  have ht : n.toNat = 0 := by omega
  rw [ht]
  rfl

/-- Witness for C10 at `d = 12345`, `n = -7`. -/
theorem addBusinessDays_nonpos_witness : addBusinessDays 12345 (-7) = 12345 :=
  addBusinessDays_nonpos 12345 (-7) (by decide)

/-- C4: `estimateTransitDays` returns 5 when either postal code is
absent (falsy), and otherwise maps the absolute difference of the
`parseInt`s of the leading three digits through the thresholds
`<50 → 2`, `<200 → 3`, `<400 → 4`, `<600 → 5`, else `6`. -/
theorem estimateTransitDays_thresholds (o d : Option String) :
    ((jsTruthyStr o = false ∨ jsTruthyStr d = false) → estimateTransitDays o d = 5) ∧
      (∀ oz dz : ℤ, jsTruthyStr o = true → jsTruthyStr d = true →
        jsParseInt ((o.getD "").take 3) = some oz →
        jsParseInt ((d.getD "").take 3) = some dz →
        estimateTransitDays o d =
          if |oz - dz| < 50 then 2
          else if |oz - dz| < 200 then 3
          else if |oz - dz| < 400 then 4
          else if |oz - dz| < 600 then 5
          else 6) := by
  constructor
  · intro h
    unfold estimateTransitDays
    rcases h with h | h <;> simp [h]
  · intro oz dz ht1 ht2 hp1 hp2
    unfold estimateTransitDays
    rw [ht1, ht2, hp1, hp2]
    show (if !true || !true then (5 : ℤ)
      else if jsLt (jsAbsSub (some oz) (some dz)) 50 then 2
      else if jsLt (jsAbsSub (some oz) (some dz)) 200 then 3
      else if jsLt (jsAbsSub (some oz) (some dz)) 400 then 4
      else if jsLt (jsAbsSub (some oz) (some dz)) 600 then 5
      else 6) = _
    simp [jsAbsSub, jsLt]

/-- Witness for C4: an absent origin gives 5, and codes "29403" and
"90210" (sectional codes 294 and 902, difference 608) give 6. -/
theorem estimateTransitDays_thresholds_witness :
    estimateTransitDays none (some "29403") = 5 ∧
      estimateTransitDays (some "29403") (some "90210") = 6 := by
  refine ⟨(estimateTransitDays_thresholds none (some "29403")).1 (Or.inl rfl), ?_⟩
  have h := (estimateTransitDays_thresholds (some "29403") (some "90210")).2 294 902
    (by decide) (by decide) (by decide) (by decide)
  rw [h]
  decide

/-- C9: for non-empty postal codes whose leading three characters do not
parse as an integer, the sectional difference is `NaN`, every threshold
comparison is false, and `estimateTransitDays` returns 6. -/
theorem estimateTransitDays_nan (os ds : String) (h1 : os ≠ "") (h2 : ds ≠ "")
    (hp1 : jsParseInt (os.take 3) = none) (hp2 : jsParseInt (ds.take 3) = none) :
    estimateTransitDays (some os) (some ds) = 6 := by
  have ht1 : jsTruthyStr (some os) = true := (jsTruthyStr_some_iff os).mpr h1
  have ht2 : jsTruthyStr (some ds) = true := (jsTruthyStr_some_iff ds).mpr h2
  unfold estimateTransitDays
  rw [ht1, ht2]
  show (if !true || !true then (5 : ℤ)
    else if jsLt (jsAbsSub (jsParseInt (os.take 3)) (jsParseInt (ds.take 3))) 50 then 2
    else if jsLt (jsAbsSub (jsParseInt (os.take 3)) (jsParseInt (ds.take 3))) 200 then 3
    else if jsLt (jsAbsSub (jsParseInt (os.take 3)) (jsParseInt (ds.take 3))) 400 then 4
    else if jsLt (jsAbsSub (jsParseInt (os.take 3)) (jsParseInt (ds.take 3))) 600 then 5
    else 6) = 6
  rw [hp1, hp2]
  simp [jsAbsSub, jsLt]

/-- Witness for C9 at `"ABCDE"` and `"ZIPCO"`. -/
theorem estimateTransitDays_nan_witness :
    estimateTransitDays (some "ABCDE") (some "ZIPCO") = 6 :=
  estimateTransitDays_nan "ABCDE" "ZIPCO" (by decide) (by decide) (by decide) (by decide)

lemma parseRateResponse_invariant (data : RateResponseData) (shipDate : ℤ) :
    ((parseRateResponse data shipDate).success = true →
      ((parseRateResponse data shipDate).deliveryDateMin.isSome = true ∧
        (parseRateResponse data shipDate).transitDays.isSome = true)) ∧
      ((parseRateResponse data shipDate).success = false →
        ((parseRateResponse data shipDate).error.isSome = true ∧
          (parseRateResponse data shipDate).deliveryDateMin = none ∧
          (parseRateResponse data shipDate).deliveryDateMax = none ∧
          (parseRateResponse data shipDate).transitDays = none)) ∧
      (parseRateResponse data shipDate).carrier = some "fedex" := by
  unfold parseRateResponse
  rcases hrr : data.rateReplyDetails.bind List.head? with _ | rateReply
  · simp
  · rcases hdf : (rateReply.commit.bind Commit.dateDetail).bind DateDetail.dayFormat
      with _ | fedexDate <;> simp [hdf]

/-- C6: `getTransitTime` never throws — every failure path yields a
response with `success:false`, an error message and the carrier
identifier — and every response satisfies the invariant: a successful
response carries `deliveryDateMin` and `transitDays`, a failed response
carries `error` and no date/day fields. -/
theorem getTransitTime_invariant (creds : FedExCredentials) (req : TransitTimeRequest)
    (env : FedExEnv) :
    ((getTransitTime creds req env).success = true →
      ((getTransitTime creds req env).deliveryDateMin.isSome = true ∧
        (getTransitTime creds req env).transitDays.isSome = true)) ∧
      ((getTransitTime creds req env).success = false →
        ((getTransitTime creds req env).error.isSome = true ∧
          (getTransitTime creds req env).deliveryDateMin = none ∧
          (getTransitTime creds req env).deliveryDateMax = none ∧
          (getTransitTime creds req env).transitDays = none)) ∧
      (getTransitTime creds req env).carrier = some "fedex" := by
  unfold getTransitTime
  by_cases hv : validateCredentials creds = true
  · rw [hv]
    rcases env.tokenResult with msg | _token
    · simp
    · rcases env.fetchResult with msg | reply
      · simp
      · rcases reply with errMsg | data
        · simp
        · simpa using parseRateResponse_invariant data
            (match req.shipDate with
             | some d => d
             | none => getNextBusinessDay env.now.day)
  · have hv' : validateCredentials creds = false := by simpa using hv
    rw [hv']
    simp

/-- Witness for C6: concrete missing-credential and successful-parse
calls, checked through the theorem. -/
theorem getTransitTime_invariant_witness :
    (getTransitTime ⟨none, none, none⟩
        ⟨⟨none, "", "", "", ""⟩, ⟨none, "", "", "", ""⟩, some 20000, none⟩
        ⟨Except.ok "t", Except.ok (RateHttpReply.failure none), ⟨0, 0⟩⟩).success = false →
      (getTransitTime ⟨none, none, none⟩
          ⟨⟨none, "", "", "", ""⟩, ⟨none, "", "", "", ""⟩, some 20000, none⟩
          ⟨Except.ok "t", Except.ok (RateHttpReply.failure none), ⟨0, 0⟩⟩).error.isSome = true := by
  intro h
  exact ((getTransitTime_invariant ⟨none, none, none⟩
    ⟨⟨none, "", "", "", ""⟩, ⟨none, "", "", "", ""⟩, some 20000, none⟩
    ⟨Except.ok "t", Except.ok (RateHttpReply.failure none), ⟨0, 0⟩⟩).2.1 h).1

lemma firstDigitRun_eq_none {l : List Char} (h : l.all (fun c => !c.isDigit) = true) :
    firstDigitRun l = none := by
  induction l with
  | nil => rfl
  | cons c rest ih =>
      rw [List.all_cons, Bool.and_eq_true] at h
      unfold firstDigitRun
      rw [if_neg (by simpa using h.1)]
      exact ih h.2

lemma parseTransitDays_eq_none {desc : Option String}
    (h : ∀ s, desc = some s → s.toList.all (fun c => !c.isDigit) = true) :
    parseTransitDays desc = none := by
  rcases desc with _ | s
  · rfl
  · have hz : firstDigitRun s.data = none := firstDigitRun_eq_none (h s rfl)
    simp [parseTransitDays, hz]

/-- C7 (amended): when a rate detail is present but supplies no truthy
numeric transit-day count, no digits in the transit description and no
explicit delivery date, the parsed response uses the fixed 3-day default
for the date window — `deliveryDateMin = shipDate + 3` business days,
`deliveryDateMax = shipDate + 5` business days — while the reported
`transitDays` field defaults to 5, the width of the maximum window, not
to the 3-day minimum. -/
theorem parseRateResponse_no_signal (shipDate : ℤ) (data : RateResponseData)
    (rateReply : RateReplyDetail) (rest : List RateReplyDetail)
    (hd : data.rateReplyDetails = some (rateReply :: rest))
    (hq : jsNumTruthy ((rateReply.commit.bind Commit.transitTime).bind
      TransitTimeInfo.transitDays) = false)
    (hdesc : ∀ s, (rateReply.commit.bind Commit.transitTime).bind
      TransitTimeInfo.description = some s → s.toList.all (fun c => !c.isDigit) = true)
    (hdf : (rateReply.commit.bind Commit.dateDetail).bind DateDetail.dayFormat = none) :
    parseRateResponse data shipDate =
      { success := true,
        deliveryDateMin := some (addBusinessDays shipDate 3),
        deliveryDateMax := some (addBusinessDays shipDate 5),
        transitDays := some 5,
        serviceName := some (jsOrStr rateReply.serviceName "FedEx Ground"),
        carrier := some "fedex" } := by
  have hhead : data.rateReplyDetails.bind List.head? = some rateReply := by
    rw [hd]
    rfl
  have hparse : parseTransitDays ((rateReply.commit.bind Commit.transitTime).bind
      TransitTimeInfo.description) = none := parseTransitDays_eq_none hdesc
  have hcomb : jsOrNumOpt ((rateReply.commit.bind Commit.transitTime).bind
      TransitTimeInfo.transitDays) (parseTransitDays ((rateReply.commit.bind
      Commit.transitTime).bind TransitTimeInfo.description)) = none := by
    unfold jsOrNumOpt
    rw [hq, hparse]
    rfl
  unfold parseRateResponse
  rw [hhead]
  simp only [hdf, hcomb]
  rfl

/-- Counterexample to C7 as stated: with a rate detail whose transit
description is "GROUND" (no digits) and no explicit date, the date window
uses the 3-day default but the reported `transitDays` is 5, which is not
the business-day count of the minimum window. -/
theorem parseRateResponse_no_signal_counterexample :
    (parseRateResponse ⟨some [⟨some ⟨some ⟨none, some "GROUND"⟩, none⟩, none⟩]⟩
        20000).deliveryDateMin = some (addBusinessDays 20000 3) ∧
      (parseRateResponse ⟨some [⟨some ⟨some ⟨none, some "GROUND"⟩, none⟩, none⟩]⟩
        20000).transitDays = some 5 ∧
      (parseRateResponse ⟨some [⟨some ⟨some ⟨none, some "GROUND"⟩, none⟩, none⟩]⟩
        20000).transitDays ≠
        some (calculateBusinessDays 20000 (addBusinessDays 20000 3)) := by
  refine ⟨by decide, by decide, by decide⟩

/-- Witness for C7 (amended) at a concrete no-signal rate response. -/
theorem parseRateResponse_no_signal_witness :
    parseRateResponse ⟨some [⟨some ⟨some ⟨none, some "TWO_DAYS"⟩, none⟩, some "FedEx Home"⟩]⟩
        20000 =
      { success := true,
        deliveryDateMin := some (addBusinessDays 20000 3),
        deliveryDateMax := some (addBusinessDays 20000 5),
        transitDays := some 5,
        serviceName := some (jsOrStr (some "FedEx Home") "FedEx Ground"),
        carrier := some "fedex" } := by
  exact parseRateResponse_no_signal 20000
    ⟨some [⟨some ⟨some ⟨none, some "TWO_DAYS"⟩, none⟩, some "FedEx Home"⟩]⟩
    ⟨some ⟨some ⟨none, some "TWO_DAYS"⟩, none⟩, some "FedEx Home"⟩ [] rfl (by decide)
    (fun s hs => by
      cases hs
      decide)
    rfl

/-- C2: a missing settings record yields exactly
`{success:false, error:"App not configured for this shop"}`, a disabled
shop yields exactly `{success:false, error:"Delivery estimates are
disabled"}`; all other fields stay absent and the result does not depend
on any later collaborator. -/
theorem getDeliveryEstimate_config_failures (pc : Option String) (env : OrchEnv) :
    (env.settingsResult = Except.ok none →
      getDeliveryEstimate pc env =
        { success := false, error := some "App not configured for this shop" }) ∧
      (∀ s : AppSettings, env.settingsResult = Except.ok (some s) → s.isEnabled = false →
        getDeliveryEstimate pc env =
          { success := false, error := some "Delivery estimates are disabled" }) := by
  constructor
  · intro h
    unfold getDeliveryEstimate getDeliveryEstimateCore
    rw [h]
  · intro s h hdis
    unfold getDeliveryEstimate getDeliveryEstimateCore
    rw [h]
    simp only [hdis]
    rfl

/-- Witness for C2 at concrete environments (no settings row; a disabled
row). -/
theorem getDeliveryEstimate_config_failures_witness :
    getDeliveryEstimate none
        ⟨⟨20000, 0⟩, Except.ok none, Except.ok none, Except.ok none,
          ⟨Except.ok "t", Except.ok (RateHttpReply.failure none), ⟨0, 0⟩⟩, none⟩ =
      { success := false, error := some "App not configured for this shop" } ∧
      getDeliveryEstimate none
          ⟨⟨20000, 0⟩,
            Except.ok (some ⟨false, none, "Charleston", "SC", "29403", "US", 1, "14:00",
              none, none, none, true⟩),
            Except.ok none, Except.ok none,
            ⟨Except.ok "t", Except.ok (RateHttpReply.failure none), ⟨0, 0⟩⟩, none⟩ =
        { success := false, error := some "Delivery estimates are disabled" } :=
  ⟨(getDeliveryEstimate_config_failures none
      ⟨⟨20000, 0⟩, Except.ok none, Except.ok none, Except.ok none,
        ⟨Except.ok "t", Except.ok (RateHttpReply.failure none), ⟨0, 0⟩⟩, none⟩).1 rfl,
   (getDeliveryEstimate_config_failures none
      ⟨⟨20000, 0⟩,
        Except.ok (some ⟨false, none, "Charleston", "SC", "29403", "US", 1, "14:00",
          none, none, none, true⟩),
        Except.ok none, Except.ok none,
        ⟨Except.ok "t", Except.ok (RateHttpReply.failure none), ⟨0, 0⟩⟩, none⟩).2
     ⟨false, none, "Charleston", "SC", "29403", "US", 1, "14:00", none, none, none, true⟩
     rfl rfl⟩

/-- C1 (amended): the orchestrator is total, and whenever its try-block
body raises (any collaborator rejects), the boundary catch converts the
exception into `{success:false, error:"Failed to calculate delivery
estimate"}` — with a capital F, unlike the lowercase string the claim
quotes. -/
theorem getDeliveryEstimate_boundary (pc : Option String) (env : OrchEnv) (msg : String)
    (h : getDeliveryEstimateCore pc env = Except.error msg) :
    getDeliveryEstimate pc env =
      { success := false, error := some "Failed to calculate delivery estimate" } := by
  unfold getDeliveryEstimate
  rw [h]

/-- Counterexample to C1 as stated: when the settings lookup rejects, the
boundary result's error string is "Failed to calculate delivery estimate",
not the claimed "failed to calculate delivery estimate". -/
theorem getDeliveryEstimate_boundary_counterexample :
    (getDeliveryEstimate none
        ⟨⟨20000, 0⟩, Except.error "database connection lost", Except.ok none, Except.ok none,
          ⟨Except.ok "t", Except.ok (RateHttpReply.failure none), ⟨0, 0⟩⟩, none⟩).error =
      some "Failed to calculate delivery estimate" ∧
      (getDeliveryEstimate none
          ⟨⟨20000, 0⟩, Except.error "database connection lost", Except.ok none, Except.ok none,
            ⟨Except.ok "t", Except.ok (RateHttpReply.failure none), ⟨0, 0⟩⟩, none⟩).error ≠
        some "failed to calculate delivery estimate" := by
  constructor
  · rfl
  · decide

/-- Witness for C1 (amended) at a rejecting settings lookup. -/
theorem getDeliveryEstimate_boundary_witness :
    getDeliveryEstimate none
        ⟨⟨20000, 0⟩, Except.error "database connection lost", Except.ok none, Except.ok none,
          ⟨Except.ok "t", Except.ok (RateHttpReply.failure none), ⟨0, 0⟩⟩, none⟩ =
      { success := false, error := some "Failed to calculate delivery estimate" } :=
  getDeliveryEstimate_boundary none
    ⟨⟨20000, 0⟩, Except.error "database connection lost", Except.ok none, Except.ok none,
      ⟨Except.ok "t", Except.ok (RateHttpReply.failure none), ⟨0, 0⟩⟩, none⟩
    "database connection lost" rfl

/-- C5: whenever the carrier result is absent or unsuccessful (including
the no-credentials case), the orchestrator returns a successful fallback
estimate whose `transitDays` is the zone heuristic of the warehouse and
destination postal codes, whose `deliveryDateMin`/`deliveryDateMax` are
`addBusinessDays(shipDate, transitDays)` and
`addBusinessDays(shipDate, transitDays+2)`, marked `isFallback:true`;
and whenever the two parsed 3-digit postal prefixes differ by 30 the
heuristic yields 2 transit days. -/
theorem getDeliveryEstimate_fallback (pc : Option String) (env : OrchEnv)
    (s : AppSettings) (dest : GeoLocation)
    (h1 : env.settingsResult = Except.ok (some s))
    (h2 : s.isEnabled = true)
    (h3 : resolveDestination pc env = Except.ok dest)
    (h4 : ∀ r, carrierTransitResult s (buildOrigin s) dest
      (calculateShipDate env.now s.handlingTimeDays s.cutoffTime) env = some r →
      r.success = false) :
    ((getDeliveryEstimate pc env).success = true ∧
      (getDeliveryEstimate pc env).isFallback = some true ∧
      (getDeliveryEstimate pc env).transitDays =
        some (estimateTransitDays (some (buildOrigin s).postalCode) (some dest.postalCode)) ∧
      (getDeliveryEstimate pc env).deliveryDateMin =
        some (addBusinessDays (calculateShipDate env.now s.handlingTimeDays s.cutoffTime)
          (estimateTransitDays (some (buildOrigin s).postalCode) (some dest.postalCode))) ∧
      (getDeliveryEstimate pc env).deliveryDateMax =
        some (addBusinessDays (calculateShipDate env.now s.handlingTimeDays s.cutoffTime)
          (estimateTransitDays (some (buildOrigin s).postalCode) (some dest.postalCode) + 2))) ∧
      (∀ (o d : Option String) (oz dz : ℤ), jsTruthyStr o = true → jsTruthyStr d = true →
        jsParseInt ((o.getD "").take 3) = some oz →
        jsParseInt ((d.getD "").take 3) = some dz →
        |oz - dz| = 30 → estimateTransitDays o d = 2) := by
  constructor
  · have hres : getDeliveryEstimate pc env =
        generateFallbackEstimate (buildOrigin s) dest
          (calculateShipDate env.now s.handlingTimeDays s.cutoffTime) s := by
      unfold getDeliveryEstimate getDeliveryEstimateCore
      rw [h1]
      simp only [h2, Bool.true_eq_false, if_false, h3]
      rcases hct : carrierTransitResult s (buildOrigin s) dest
          (calculateShipDate env.now s.handlingTimeDays s.cutoffTime) env with _ | r
      · rfl
      · simp [h4 r hct]
    rw [hres]
    unfold generateFallbackEstimate
    exact ⟨rfl, rfl, rfl, rfl, rfl⟩
  · intro o d oz dz ht1 ht2 hp1 hp2 hdiff
    unfold estimateTransitDays
    rw [ht1, ht2, hp1, hp2]
    show (if !true || !true then (5 : ℤ)
      else if jsLt (jsAbsSub (some oz) (some dz)) 50 then 2
      else if jsLt (jsAbsSub (some oz) (some dz)) 200 then 3
      else if jsLt (jsAbsSub (some oz) (some dz)) 400 then 4
      else if jsLt (jsAbsSub (some oz) (some dz)) 600 then 5
      else 6) = 2
    simp [jsAbsSub, jsLt, hdiff]

/-- Witness for C5: warehouse "10001" and destination "13001" (prefixes
100 and 130, difference 30), no carrier credentials: fallback with 2
transit days. -/
theorem getDeliveryEstimate_fallback_witness :
    (getDeliveryEstimate (some "13001")
        ⟨⟨20000, 0⟩,
          Except.ok (some ⟨true, none, "New York", "NY", "10001", "US", 1, "14:00",
            none, none, none, true⟩),
          Except.ok (some ⟨"Utica", "NY", "13001", "US"⟩), Except.ok none,
          ⟨Except.ok "t", Except.ok (RateHttpReply.failure none), ⟨0, 0⟩⟩, none⟩).success =
      true ∧
      (getDeliveryEstimate (some "13001")
          ⟨⟨20000, 0⟩,
            Except.ok (some ⟨true, none, "New York", "NY", "10001", "US", 1, "14:00",
              none, none, none, true⟩),
            Except.ok (some ⟨"Utica", "NY", "13001", "US"⟩), Except.ok none,
            ⟨Except.ok "t", Except.ok (RateHttpReply.failure none), ⟨0, 0⟩⟩,
            none⟩).isFallback = some true ∧
      (getDeliveryEstimate (some "13001")
          ⟨⟨20000, 0⟩,
            Except.ok (some ⟨true, none, "New York", "NY", "10001", "US", 1, "14:00",
              none, none, none, true⟩),
            Except.ok (some ⟨"Utica", "NY", "13001", "US"⟩), Except.ok none,
            ⟨Except.ok "t", Except.ok (RateHttpReply.failure none), ⟨0, 0⟩⟩,
            none⟩).transitDays = some 2 := by
  have h := getDeliveryEstimate_fallback (some "13001")
    ⟨⟨20000, 0⟩,
      Except.ok (some ⟨true, none, "New York", "NY", "10001", "US", 1, "14:00",
        none, none, none, true⟩),
      Except.ok (some ⟨"Utica", "NY", "13001", "US"⟩), Except.ok none,
      ⟨Except.ok "t", Except.ok (RateHttpReply.failure none), ⟨0, 0⟩⟩, none⟩
    ⟨true, none, "New York", "NY", "10001", "US", 1, "14:00", none, none, none, true⟩
    ⟨"Utica", "NY", "13001", "US"⟩ rfl rfl rfl
    (fun r hr => by
      rw [show carrierTransitResult
          ⟨true, none, "New York", "NY", "10001", "US", 1, "14:00", none, none, none, true⟩
          (buildOrigin ⟨true, none, "New York", "NY", "10001", "US", 1, "14:00",
            none, none, none, true⟩)
          ⟨"Utica", "NY", "13001", "US"⟩
          (calculateShipDate ⟨20000, 0⟩ 1 "14:00")
          ⟨⟨20000, 0⟩,
            Except.ok (some ⟨true, none, "New York", "NY", "10001", "US", 1, "14:00",
              none, none, none, true⟩),
            Except.ok (some ⟨"Utica", "NY", "13001", "US"⟩), Except.ok none,
            ⟨Except.ok "t", Except.ok (RateHttpReply.failure none), ⟨0, 0⟩⟩, none⟩ = none
        from rfl] at hr
      exact Option.noConfusion hr)
  refine ⟨h.1.1, h.1.2.1, ?_⟩
  rw [h.1.2.2.1]
  have h2 := h.2 (some "10001") (some "13001") 100 130 (by decide) (by decide)
    (by decide) (by decide) (by decide)
  show some (estimateTransitDays (some "10001") (some "13001")) = some 2
  rw [h2]

/-- C3 (amended): `calculateShipDate` takes no processing-day set — the
set is fixed to the weekdays Monday..Friday.  For every `now`, every
`handlingDays ≥ 0` and every valid `HH:MM` cutoff: the start day is
tomorrow exactly when `now` is at or past the cutoff instant (the
comparison is inclusive), the function then advances counting exactly
`handlingDays` weekdays, a zero-handling result is the first weekday at
or after the start day, and the returned date is always a weekday. -/
theorem calculateShipDate_spec (now : JsDate) (handlingDays : ℤ) (cutoffTime : String)
    (ch cm : ℕ) (hparse : parseCutoffTime cutoffTime = some (ch, cm))
    (_hch : ch < 24) (_hcm : cm < 60) (_hh : 0 ≤ handlingDays)
    (_hnow : now.timeMs < 86400000) :
    isBusinessDay (calculateShipDate now handlingDays cutoffTime) = true ∧
      (if ch * 3600000 + cm * 60000 ≤ now.timeMs then now.day + 1 else now.day) ≤
        calculateShipDate now handlingDays cutoffTime ∧
      (0 < handlingDays →
        countBusinessBetween
            (if ch * 3600000 + cm * 60000 ≤ now.timeMs then now.day + 1 else now.day)
            (calculateShipDate now handlingDays cutoffTime) = handlingDays.toNat) ∧
      (handlingDays = 0 →
        ∀ e, (if ch * 3600000 + cm * 60000 ≤ now.timeMs then now.day + 1 else now.day) ≤ e →
          e < calculateShipDate now handlingDays cutoffTime → isBusinessDay e = false) := by
  have hcalc : calculateShipDate now handlingDays cutoffTime =
      skipWeekend (addBusinessDaysNat
        (if ch * 3600000 + cm * 60000 ≤ now.timeMs then now.day + 1 else now.day)
        handlingDays.toNat) := by
    unfold calculateShipDate
    rw [hparse]
  rw [hcalc]
  refine ⟨(skipWeekend_least _).2.1, ?_, ?_, ?_⟩
  · exact le_trans (le_addBusinessDaysNat _ _) (skipWeekend_least _).1
  · intro hpos
    have hn : 1 ≤ handlingDays.toNat := by omega
    have hbiz := isBusinessDay_addBusinessDaysNat
      (if ch * 3600000 + cm * 60000 ≤ now.timeMs then now.day + 1 else now.day)
      handlingDays.toNat hn
    rw [skipWeekend_of_business hbiz]
    exact countBusinessBetween_addBusinessDaysNat _ _
  · intro hz
    have hn : handlingDays.toNat = 0 := by omega
    rw [hn]
    exact (skipWeekend_least _).2.2

/-- Counterexample to C3 as stated: the claim quantifies over an
arbitrary `processingDays` set and asserts the returned date is a member
of it, but `calculateShipDate` takes no such parameter and always skips
exactly the weekend days — for the processing-day set {0} (Sundays only)
and a Friday morning before cutoff with zero handling days, the returned
date (that same Friday) is not in the set. -/
theorem calculateShipDate_counterexample :
    ¬ (jsGetDay (calculateShipDate ⟨20000, 0⟩ 0 "14:00") ∈ [(0 : ℤ)]) := by
  decide

/-- Witness for C3 at a request exactly at the 14:00 cutoff on a Friday
with one handling day: the start day is Saturday (inclusive comparison),
and exactly one weekday is counted up to the returned Monday. -/
theorem calculateShipDate_spec_witness :
    isBusinessDay (calculateShipDate ⟨20000, 50400000⟩ 1 "14:00") = true ∧
      countBusinessBetween 20001 (calculateShipDate ⟨20000, 50400000⟩ 1 "14:00") = 1 := by
  have h := calculateShipDate_spec ⟨20000, 50400000⟩ 1 "14:00" 14 0 (by decide) (by decide)
    (by decide) (by decide) (by decide)
  refine ⟨h.1, ?_⟩
  have hc := h.2.2.1 (by decide)
  have hif : (if 14 * 3600000 + 0 * 60000 ≤ (⟨20000, 50400000⟩ : JsDate).timeMs
      then (⟨20000, 50400000⟩ : JsDate).day + 1 else (⟨20000, 50400000⟩ : JsDate).day) =
      20001 := by decide
  rw [hif] at hc
  exact hc
